import Mathlib

/-!
# OpenSSL bootstrap, version gate and legacy lock bridge

A shallow embedding of `src/main/tls/global.c` (FreeRADIUS): the version gate
`tls_global_version_check`, the legacy lock bridge (`global_mutexes_init`,
`_global_mutexes_free`, `_global_mutex`) and the lifecycle functions
`tls_global_init` and `tls_global_cleanup`.

Conventions of the embedding.

* Calls into OpenSSL, talloc and pthreads are recorded as `Event`s, in program
  order.  Pure reads (`CRYPTO_num_locks()`, `SSLeay()`, `ENGINE_get_default_RAND()`,
  `ENGINE_get_id()`, `EVP_sha256()`, `talloc_array_length()`) are inputs, not events.
* The two file-scope variables `tls_done_init` and `global_mutexes` form `State`.
* Preprocessor conditions are fields of `OpenSSL` and are tested where the source
  tests them.
* What the outside world answers during one call of `tls_global_init` (does
  `talloc_array` return memory, which engine is the default RAND) is an `Oracle`.
-/

namespace TlsGlobal

/-! ## Version gate -/

/-- The record `libssl_defect_t`; `high` and `low` are `uint64_t` in the source. -/
structure libssl_defect_t where
  high : Nat
  low : Nat
  id : String
  name : String
  comment : String
  deriving DecidableEq, Repr

/-- The static table `libssl_defects` (newest first). -/
def libssl_defects : List libssl_defect_t :=
  [ { low := 0x010001000
      high := 0x01000106f
      id := "CVE-2014-0160"
      name := "Heartbleed"
      comment := "For more information see http://heartbleed.com" } ]

/-- Diagnostics written by `tls_global_version_check`, one constructor per format string.
`ERROR_refusing low high` is
`ERROR("Refusing to start with libssl version %s (in range %s)", ssl_version(), ssl_version_range(low, high))`,
`ERROR_advisory id name` is `ERROR("Security advisory %s (%s)", id, name)`,
`ERROR_comment c` is `ERROR("%s", c)` and `INFO_allow id` is the closing
`INFO("Once you have verified ... set security.allow_vulnerable_openssl = ..", id)`. -/
inductive LogMsg where
  | ERROR_refusing (low high : Nat)
  | ERROR_advisory (id name : String)
  | ERROR_comment (comment : String)
  | INFO_allow (id : String)
  deriving DecidableEq, Repr

/-- The three `ERROR` lines written for one matching defect. -/
def defect_report (defect : libssl_defect_t) : List LogMsg :=
  [ LogMsg.ERROR_refusing defect.low defect.high,
    LogMsg.ERROR_advisory defect.id defect.name,
    LogMsg.ERROR_comment defect.comment ]

/-- One iteration of the `for` loop of `tls_global_version_check`; the loop state is
the local `bad` and the diagnostics written so far. -/
def check_defect (v : Nat) (st : Bool × List LogMsg) (defect : libssl_defect_t) :
    Bool × List LogMsg :=
  if v ≥ defect.low ∧ v ≤ defect.high then (true, st.2 ++ defect_report defect) else st

/-- The words of the specification for "the range of `d` contains `v`":
`low <= v <= high`, both bounds inclusive. -/
def affected (v : Nat) (d : libssl_defect_t) : Bool :=
  decide (d.low ≤ v ∧ v ≤ d.high)

/-- The function `tls_global_version_check`, over an arbitrary defect table.  `SSLeay` is
the value returned by `SSLeay()`; the cast to `uint64_t` is the reduction modulo `2^64`.
The result is the return value and the diagnostics written.  `libssl_defects[0]` of an
empty table does not exist: `none`. -/
def tls_global_version_check (defects : List libssl_defect_t) (SSLeay : Nat)
    (acknowledged : String) : Option (Int × List LogMsg) :=
  match defects with
  | [] => none
  | newest :: _ =>
    if acknowledged ≠ newest.id ∧ acknowledged ≠ "yes" then
      let v := SSLeay % 2 ^ 64
      let st := defects.foldl (check_defect v) (false, [])
      if st.1 then some (-1, st.2 ++ [LogMsg.INFO_allow newest.id])
      else some (0, st.2)
    else some (0, [])

/-- The defects a log reports, in order: one triple (identifier, name, remediation
comment) for each `Security advisory` line followed by its comment line. -/
def reported_defects : List LogMsg → List (String × String × String)
  | [] => []
  | LogMsg.ERROR_advisory id name :: LogMsg.ERROR_comment c :: rest =>
    (id, name, c) :: reported_defects rest
  | _ :: rest => reported_defects rest

/-! ## Legacy lock bridge -/

/-- The life cycle of one `pthread_mutex_t` slot of the array. -/
inductive pthread_mutex_t where
  | uninit
  | unlocked
  | locked
  | destroyed
  deriving DecidableEq, Repr

/-- The two callbacks handed to OpenSSL. -/
inductive Callback where
  | _thread_id
  | _global_mutex
  deriving DecidableEq, Repr

/-- Calls with an effect outside this file, and the log lines of the lifecycle code. -/
inductive Event where
  | SSL_load_error_strings
  | SSL_library_init
  | OpenSSL_add_all_algorithms
  | ENGINE_load_builtin_engines
  | EVP_add_digest_sha256
  | talloc_array (count : Nat)
  | talloc_set_destructor
  | pthread_mutex_init (i : Nat)
  | CRYPTO_set_id_callback (cb : Option Callback)
  | CRYPTO_set_locking_callback (cb : Option Callback)
  | OPENSSL_init_crypto
  | ENGINE_unregister_RAND
  | ENGINE_register_all_complete
  | OPENSSL_config
  | ERROR (msg : String)
  | FR_TLS_REMOVE_THREAD_STATE
  | ENGINE_cleanup
  | CONF_modules_unload
  | ERR_free_strings
  | EVP_cleanup
  | CRYPTO_cleanup_all_ex_data
  | pthread_mutex_destroy (i : Nat)
  | talloc_free
  | pthread_mutex_lock (n : Nat)
  | pthread_mutex_unlock (n : Nat)
  deriving DecidableEq, Repr

/-- The linked library as the file sees it: the two preprocessor inputs and the value
`CRYPTO_num_locks()` returns (an `int`). -/
structure OpenSSL where
  OPENSSL_VERSION_NUMBER : Nat
  HAVE_OPENSSL_EVP_SHA256 : Bool
  CRYPTO_num_locks : Int
  deriving DecidableEq, Repr

/-- The legacy threading model: `#if OPENSSL_VERSION_NUMBER < 0x10100000L`. -/
def OpenSSL.legacy (lib : OpenSSL) : Bool :=
  decide (lib.OPENSSL_VERSION_NUMBER < 0x10100000)

/-- Answers of the outside world during one call of `tls_global_init`:
whether `talloc_array` returns memory, and the id of `ENGINE_get_default_RAND()`
(`none` when it returns `NULL`). -/
structure Oracle where
  talloc_array_ok : Bool
  default_RAND : Option String
  deriving DecidableEq, Repr

/-- The locals `i` and `mutexes` of `global_mutexes_init`, with the calls made so far. -/
structure Locks where
  i : Nat
  mutexes : List pthread_mutex_t
  trace : List Event
  deriving DecidableEq, Repr

/-- The statement
`if (i < CRYPTO_num_locks()) pthread_mutex_init(&(mutexes[i++]), NULL)`. -/
def SETUP_CRYPTO_LOCK (num_locks : Int) (st : Locks) : Locks :=
  if (st.i : Int) < num_locks then
    { i := st.i + 1
      mutexes := st.mutexes.set st.i pthread_mutex_t.unlocked
      trace := st.trace ++ [Event.pthread_mutex_init st.i] }
  else st

/-- The loop `while (i < CRYPTO_num_locks()) SETUP_CRYPTO_LOCK;`. -/
def while_more_locks (num_locks : Int) (st : Locks) : Locks :=
  if (st.i : Int) < num_locks then
    while_more_locks num_locks (SETUP_CRYPTO_LOCK num_locks st)
  else st
termination_by (num_locks - st.i).toNat
decreasing_by
  simp only [SETUP_CRYPTO_LOCK]
  split
  · simp_all
    omega
  · simp_all

/-- Closed form of the locals of `global_mutexes_init` once the slots `0 .. j-1` of an
array of `count` slots have been initialised (used to state what the loops compute). -/
def locks_after (count j : Nat) : Locks :=
  { i := j
    mutexes := (List.range count).map
      (fun k => if k < j then pthread_mutex_t.unlocked else pthread_mutex_t.uninit)
    trace := [Event.talloc_array count, Event.talloc_set_destructor]
      ++ (List.range j).map Event.pthread_mutex_init }

/-- The function `global_mutexes_init`: the returned pointer (`none` is `NULL`) and the
calls made.  talloc takes the element count as `unsigned`, hence the `% 2 ^ 32`; the
fresh memory holds uninitialised mutexes.  The `SETUP_CRYPTO_LOCK` statement is written
41 times in the source (indices 0 to 40) before the closing loop. -/
def global_mutexes_init (num_locks : Int) (talloc_array_ok : Bool) :
    Option (List pthread_mutex_t) × List Event :=
  let count := (num_locks % 2 ^ 32).toNat
  if talloc_array_ok = false then
    (none, [Event.talloc_array count, Event.ERROR "Error allocating memory for OpenSSL mutexes!"])
  else
    let st0 : Locks :=
      { i := 0
        mutexes := List.replicate count pthread_mutex_t.uninit
        trace := [Event.talloc_array count, Event.talloc_set_destructor] }
    let st1 := (SETUP_CRYPTO_LOCK num_locks)^[41] st0
    let st2 := while_more_locks num_locks st1
    (some st2.mutexes,
      st2.trace ++ [Event.CRYPTO_set_id_callback (some Callback._thread_id),
                    Event.CRYPTO_set_locking_callback (some Callback._global_mutex)])

/-- The destructor `_global_mutexes_free`: return value, the array afterwards and the
calls made.  The `for` loop runs `i` over `0 .. talloc_array_length(mutexes) - 1`. -/
def _global_mutexes_free (mutexes : List pthread_mutex_t) :
    Int × List pthread_mutex_t × List Event :=
  let t0 := [Event.CRYPTO_set_id_callback none, Event.CRYPTO_set_locking_callback none]
  let st := (List.range mutexes.length).foldl
    (fun (st : List pthread_mutex_t × List Event) i =>
      (st.1.set i pthread_mutex_t.destroyed, st.2 ++ [Event.pthread_mutex_destroy i]))
    (mutexes, t0)
  (0, st.1, st.2)

/-! ## Lifecycle -/

/-- The file-scope variables `tls_done_init` and `global_mutexes` (`none` is `NULL`). -/
structure State where
  tls_done_init : Bool
  global_mutexes : Option (List pthread_mutex_t)
  deriving DecidableEq, Repr

/-- The state at process start: `tls_done_init = false`, `global_mutexes = NULL`. -/
def State.start : State := { tls_done_init := false, global_mutexes := none }

/-- The result of a call: return value, state afterwards, calls made. -/
structure Outcome where
  ret : Int
  state : State
  trace : List Event
  deriving DecidableEq, Repr

/-- The tail of `tls_global_init` after the `#if`/`#else` block: the rdrand check,
`ENGINE_register_all_complete()`, `tls_done_init = true`, `OPENSSL_config(NULL)`,
`return 0`. -/
def tls_global_init_tail (o : Oracle) (s : State) (trace : List Event) : Outcome :=
  let t1 :=
    match o.default_RAND with
    | some id => if id = "rdrand" then [Event.ENGINE_unregister_RAND] else []
    | none => []
  { ret := 0
    state := { s with tls_done_init := true }
    trace := trace ++ t1 ++ [Event.ENGINE_register_all_complete, Event.OPENSSL_config] }

/-- The function `tls_global_init`. -/
def tls_global_init (lib : OpenSSL) (o : Oracle) (s : State) : Outcome :=
  if s.tls_done_init then { ret := 0, state := s, trace := [] }
  else if lib.legacy then
    let t0 := [Event.SSL_load_error_strings, Event.SSL_library_init,
               Event.OpenSSL_add_all_algorithms, Event.ENGINE_load_builtin_engines]
    let t1 := if lib.HAVE_OPENSSL_EVP_SHA256 then [Event.EVP_add_digest_sha256] else []
    match global_mutexes_init lib.CRYPTO_num_locks o.talloc_array_ok with
    | (none, t2) =>
      { ret := -1
        state := { s with global_mutexes := none }
        trace := t0 ++ t1 ++ t2 ++ [Event.ERROR "FATAL: Failed to set up SSL mutexes"] }
    | (some mutexes, t2) =>
      tls_global_init_tail o { s with global_mutexes := some mutexes } (t0 ++ t1 ++ t2)
  else
    tls_global_init_tail o s [Event.OPENSSL_init_crypto]

/-- The function `tls_global_cleanup` (legacy model only).  `TALLOC_FREE(p)` does nothing
for `NULL`; otherwise `talloc_free` runs the destructor `_global_mutexes_free`, which
returns 0, releases the memory, and `p` is set to `NULL`. -/
def tls_global_cleanup (s : State) : Outcome :=
  let t0 := [Event.FR_TLS_REMOVE_THREAD_STATE, Event.ENGINE_cleanup,
             Event.CONF_modules_unload, Event.ERR_free_strings, Event.EVP_cleanup,
             Event.CRYPTO_cleanup_all_ex_data]
  let t1 :=
    match s.global_mutexes with
    | none => []
    | some mutexes => (_global_mutexes_free mutexes).2.2 ++ [Event.talloc_free]
  { ret := 0
    state := { tls_done_init := false, global_mutexes := none }
    trace := t0 ++ t1 }

/-- The locking callback `_global_mutex(mode, n, file, line)`, as OpenSSL calls it on
one thread; `CRYPTO_LOCK` is the flag bit of `openssl/crypto.h`.  Only the slot `n` of
the array is touched. -/
def _global_mutex (CRYPTO_LOCK mode n : Nat) (s : State) : Outcome :=
  match s.global_mutexes with
  | none => { ret := 0, state := s, trace := [] }
  | some mutexes =>
    if mode &&& CRYPTO_LOCK ≠ 0 then
      { ret := 0
        state := { s with global_mutexes := some (mutexes.set n pthread_mutex_t.locked) }
        trace := [Event.pthread_mutex_lock n] }
    else
      { ret := 0
        state := { s with global_mutexes := some (mutexes.set n pthread_mutex_t.unlocked) }
        trace := [Event.pthread_mutex_unlock n] }

/-- A call made by the embedding server or by OpenSSL. -/
inductive Call where
  | init (o : Oracle)
  | cleanup
  | lock (CRYPTO_LOCK mode n : Nat)
  deriving DecidableEq, Repr

/-- Perform one call. -/
def step (lib : OpenSSL) (s : State) : Call → Outcome
  | Call.init o => tls_global_init lib o s
  | Call.cleanup => tls_global_cleanup s
  | Call.lock c mode n => _global_mutex c mode n s

/-- Perform a sequence of calls: the final state and all the calls made, in order. -/
def run (lib : OpenSSL) : State → List Call → State × List Event
  | s, [] => (s, [])
  | s, c :: cs =>
    let r := step lib s c
    let rest := run lib r.state cs
    (rest.1, r.trace ++ rest.2)


/-! ## Theorems: version gate -/

theorem foldl_check_defect (v : Nat) (ds : List libssl_defect_t) (b : Bool) (log : List LogMsg) :
    ds.foldl (check_defect v) (b, log)
      = (b || ds.any (affected v), log ++ (ds.filter (affected v)).flatMap defect_report) := by
  induction ds generalizing b log with
  | nil => simp
  | cons d ds ih =>
    rw [List.foldl_cons]
    by_cases h : d.low ≤ v ∧ v ≤ d.high
    · have ha : affected v d = true := by simp [affected, h]
      have hc : check_defect v (b, log) d = (true, log ++ defect_report d) := by
        simp [check_defect, h]
      rw [hc, ih]
      simp [ha, List.filter_cons]
    · have ha : affected v d = false := by simp [affected, h]
      have hc : check_defect v (b, log) d = (b, log) := by
        simp only [check_defect]
        rw [if_neg (by simpa [ge_iff_le] using h)]
      rw [hc, ih]
      simp [ha, List.filter_cons]

theorem version_check_eq (newest : libssl_defect_t) (older : List libssl_defect_t)
    (SSLeay : Nat) (acknowledged : String) :
    tls_global_version_check (newest :: older) SSLeay acknowledged
      = if acknowledged ≠ newest.id ∧ acknowledged ≠ "yes" then
          (if (newest :: older).any (affected (SSLeay % 2 ^ 64)) then
            some (-1, ((newest :: older).filter (affected (SSLeay % 2 ^ 64))).flatMap defect_report
                        ++ [LogMsg.INFO_allow newest.id])
          else some (0, ((newest :: older).filter (affected (SSLeay % 2 ^ 64))).flatMap defect_report))
        else some (0, []) := by
  simp only [tls_global_version_check, foldl_check_defect, Bool.false_or, List.nil_append]

theorem reported_defects_flatMap (ds : List libssl_defect_t) (tail : List LogMsg) :
    reported_defects (ds.flatMap defect_report ++ tail)
      = ds.map (fun d => (d.id, d.name, d.comment)) ++ reported_defects tail := by
  induction ds with
  | nil => rfl
  | cons d ds ih =>
    rw [List.flatMap_cons, List.append_assoc]
    simp [defect_report, reported_defects, ih]

theorem version_check_ret (newest : libssl_defect_t) (older : List libssl_defect_t)
    (SSLeay : Nat) (acknowledged : String) :
    (tls_global_version_check (newest :: older) SSLeay acknowledged).map Prod.fst
      = some (if acknowledged ≠ newest.id ∧ acknowledged ≠ "yes" ∧
                (newest :: older).any (affected (SSLeay % 2 ^ 64)) = true then -1 else 0) := by
  rw [version_check_eq]
  by_cases h1 : acknowledged = newest.id
  · simp [h1]
  · by_cases h2 : acknowledged = "yes"
    · simp [h2]
    · by_cases h3 : (newest :: older).any (affected (SSLeay % 2 ^ 64)) = true
      · rw [if_pos ⟨h1, h2⟩, if_pos h3, if_pos ⟨h1, h2, h3⟩]
        rfl
      · rw [if_pos ⟨h1, h2⟩, if_neg h3, if_neg (fun h => h3 h.2.2)]
        rfl

theorem any_affected_iff (v : Nat) (ds : List libssl_defect_t) :
    ds.any (affected v) = true ↔ ∃ d ∈ ds, d.low ≤ v ∧ v ≤ d.high := by
  simp [List.any_eq_true, affected]

/-! ## Theorems: legacy lock bridge -/

theorem SETUP_locks_after_lt (K : Int) (c j : Nat) (h : (j : Int) < K) :
    SETUP_CRYPTO_LOCK K (locks_after c j) = locks_after c (j + 1) := by
  simp only [SETUP_CRYPTO_LOCK, locks_after, if_pos h, List.range_succ, List.map_append,
    List.map_cons, List.map_nil, List.append_assoc, Locks.mk.injEq, true_and, and_true]
  apply List.ext_getElem
  · simp
  · intro n h₁ h₂
    simp only [List.getElem_set, List.getElem_map, List.getElem_range]
    by_cases hn : j = n
    · subst hn
      simp
    · simp only [hn, if_false]
      by_cases hlt : n < j
      · simp [hlt, Nat.lt_succ_of_lt hlt]
      · have : ¬ n < j + 1 := by omega
        simp [hlt, this]

theorem SETUP_locks_after_ge (K : Int) (c j : Nat) (h : ¬ (j : Int) < K) :
    SETUP_CRYPTO_LOCK K (locks_after c j) = locks_after c j := by
  simp only [SETUP_CRYPTO_LOCK]
  rw [if_neg (by simpa [locks_after] using h)]

theorem iterate_SETUP_locks_after (K : Int) (c n : Nat) :
    (SETUP_CRYPTO_LOCK K)^[n] (locks_after c 0) = locks_after c (min n K.toNat) := by
  induction n with
  | zero => simp
  | succ n ih =>
    rw [Function.iterate_succ_apply', ih]
    by_cases h : ((min n K.toNat : Nat) : Int) < K
    · rw [SETUP_locks_after_lt K c _ h]
      congr 1
      omega
    · rw [SETUP_locks_after_ge K c _ h]
      congr 1
      omega

theorem while_more_locks_locks_after (K : Int) (c : Nat) :
    ∀ (d j : Nat), K.toNat - j = d →
      while_more_locks K (locks_after c j) = locks_after c (max j K.toNat) := by
  intro d
  induction d with
  | zero =>
    intro j hd
    rw [while_more_locks]
    have h : ¬ ((locks_after c j).i : Int) < K := by
      simp only [locks_after]
      omega
    rw [if_neg h]
    congr 1
    omega
  | succ d ih =>
    intro j hd
    rw [while_more_locks]
    have h : ((locks_after c j).i : Int) < K := by
      simp only [locks_after]
      omega
    rw [if_pos h, SETUP_locks_after_lt K c j (by simpa [locks_after] using h),
      ih (j + 1) (by omega)]
    congr 1
    omega

theorem global_mutexes_init_ok (K : Int) :
    global_mutexes_init K true
      = (some (locks_after (K % 2 ^ 32).toNat K.toNat).mutexes,
         (locks_after (K % 2 ^ 32).toNat K.toNat).trace
           ++ [Event.CRYPTO_set_id_callback (some Callback._thread_id),
               Event.CRYPTO_set_locking_callback (some Callback._global_mutex)]) := by
  have h0 : ({ i := 0
               mutexes := List.replicate (K % 2 ^ 32).toNat pthread_mutex_t.uninit
               trace := [Event.talloc_array (K % 2 ^ 32).toNat, Event.talloc_set_destructor] } : Locks)
      = locks_after (K % 2 ^ 32).toNat 0 := by
    simp only [locks_after, List.range_zero, List.map_nil, List.append_nil, Locks.mk.injEq,
      true_and, and_true, Nat.not_lt_zero, if_false]
    apply List.ext_getElem <;> simp
  simp only [global_mutexes_init, h0, iterate_SETUP_locks_after,
    while_more_locks_locks_after K _ _ _ rfl]
  have : max (min 41 K.toNat) K.toNat = K.toNat := by omega
  simp [this]

theorem global_mutexes_init_fail (K : Int) :
    global_mutexes_init K false
      = (none, [Event.talloc_array (K % 2 ^ 32).toNat,
                Event.ERROR "Error allocating memory for OpenSSL mutexes!"]) := by
  simp [global_mutexes_init]

theorem locks_after_full (n : Nat) :
    (locks_after n n).mutexes = List.replicate n pthread_mutex_t.unlocked := by
  simp only [locks_after]
  apply List.ext_getElem
  · simp
  · intro k h₁ h₂
    have hk : k < n := by simpa using h₁
    simp [hk]

theorem toNat_mod_of_int_range (K : Int) (h0 : 0 ≤ K) (h1 : K < 2 ^ 31) :
    (K % 2 ^ 32).toNat = K.toNat := by
  rw [Int.emod_eq_of_lt h0 (by omega)]

theorem destroy_loop (mutexes : List pthread_mutex_t) (t : List Event) :
    ∀ n, n ≤ mutexes.length →
      (List.range n).foldl
        (fun (st : List pthread_mutex_t × List Event) i =>
          (st.1.set i pthread_mutex_t.destroyed, st.2 ++ [Event.pthread_mutex_destroy i]))
        (mutexes, t)
      = (List.replicate n pthread_mutex_t.destroyed ++ mutexes.drop n,
         t ++ (List.range n).map Event.pthread_mutex_destroy) := by
  intro n
  induction n with
  | zero => simp
  | succ n ih =>
    intro hn
    rw [List.range_succ, List.foldl_append, ih (by omega)]
    simp only [List.foldl_cons, List.foldl_nil, List.map_append, List.map_cons, List.map_nil,
      List.append_assoc, Prod.mk.injEq, and_true]
    apply List.ext_getElem
    · simp
      omega
    · intro k h₁ h₂
      simp only [List.getElem_set, List.getElem_append, List.length_replicate,
        List.getElem_replicate, List.getElem_drop]
      by_cases hk : n = k
      · subst hk
        simp
      · simp only [hk, if_false]
        by_cases hlt : k < n
        · have : k < n + 1 := by omega
          simp [hlt, this]
        · have h1 : ¬ k < n + 1 := by omega
          simp only [hlt, h1, dite_false]
          congr 1
          omega

theorem _global_mutexes_free_eq (mutexes : List pthread_mutex_t) :
    _global_mutexes_free mutexes
      = (0, List.replicate mutexes.length pthread_mutex_t.destroyed,
         [Event.CRYPTO_set_id_callback none, Event.CRYPTO_set_locking_callback none]
           ++ (List.range mutexes.length).map Event.pthread_mutex_destroy) := by
  simp only [_global_mutexes_free, destroy_loop mutexes _ mutexes.length (le_refl _)]
  simp

/-! ## Theorems: lifecycle -/

theorem tls_global_init_done (lib : OpenSSL) (o : Oracle) (s : State)
    (h : s.tls_done_init = true) :
    tls_global_init lib o s = { ret := 0, state := s, trace := [] } := by
  simp [tls_global_init, h]

theorem tls_global_init_ret (lib : OpenSSL) (o : Oracle) (s : State) :
    (tls_global_init lib o s).ret
      = if s.tls_done_init = false ∧ lib.legacy = true ∧ o.talloc_array_ok = false
        then -1 else 0 := by
  cases hs : s.tls_done_init <;> cases hl : lib.legacy <;> cases ho : o.talloc_array_ok <;>
    simp [tls_global_init, tls_global_init_tail, hs, hl, ho, global_mutexes_init_ok,
      global_mutexes_init_fail]

theorem tls_global_init_flag (lib : OpenSSL) (o : Oracle) (s : State) :
    (tls_global_init lib o s).state.tls_done_init
      = (s.tls_done_init || !(lib.legacy && !o.talloc_array_ok)) := by
  cases hs : s.tls_done_init <;> cases hl : lib.legacy <;> cases ho : o.talloc_array_ok <;>
    simp [tls_global_init, tls_global_init_tail, hs, hl, ho, global_mutexes_init_ok,
      global_mutexes_init_fail]

theorem tls_global_init_flag_of_ret (lib : OpenSSL) (o : Oracle) (s : State)
    (h : (tls_global_init lib o s).ret = 0) :
    (tls_global_init lib o s).state.tls_done_init = true := by
  rw [tls_global_init_ret] at h
  rw [tls_global_init_flag]
  cases hs : s.tls_done_init <;> cases hl : lib.legacy <;> cases ho : o.talloc_array_ok <;>
    simp_all

theorem run_inits_done (lib : OpenSSL) (os : List Oracle) (s : State)
    (h : s.tls_done_init = true) :
    run lib s (os.map Call.init) = (s, []) := by
  induction os with
  | nil => rfl
  | cons o os ih =>
    simp only [List.map_cons, run, step, tls_global_init_done lib o s h, ih, List.append_nil]

theorem rdrand_nodup {s : State} (o : Oracle) (pre : List Event) (hpre : pre.Nodup)
    (h1 : Event.ENGINE_unregister_RAND ∉ pre)
    (h2 : Event.ENGINE_register_all_complete ∉ pre) (h3 : Event.OPENSSL_config ∉ pre) :
    (tls_global_init_tail o s pre).trace.Nodup := by
  simp only [tls_global_init_tail]
  rcases o.default_RAND with _ | id
  · simp [List.nodup_append, hpre, h2, h3]
  · by_cases hid : id = "rdrand"
    · simp [List.nodup_append, hpre, h1, h2, h3, hid]
    · simp [List.nodup_append, hpre, h2, h3, hid]

theorem mutex_init_range_nodup (j : Nat) :
    ((List.range j).map Event.pthread_mutex_init).Nodup := by
  have hinj : Function.Injective Event.pthread_mutex_init := by
    intro a b hab
    injection hab
  exact (List.nodup_range j).map hinj

theorem tls_global_init_trace_nodup (lib : OpenSSL) (o : Oracle) (s : State) :
    (tls_global_init lib o s).trace.Nodup := by
  cases hs : s.tls_done_init
  case true => simp [tls_global_init, hs]
  case false =>
    cases hl : lib.legacy
    case false =>
      simp only [tls_global_init, hs, hl]
      exact rdrand_nodup o _ (by simp) (by simp) (by simp) (by simp)
    case true =>
      cases ho : o.talloc_array_ok
      case false =>
        cases hsha : lib.HAVE_OPENSSL_EVP_SHA256 <;>
          simp [tls_global_init, hs, hl, ho, hsha, global_mutexes_init_fail]
      case true =>
        have hn := mutex_init_range_nodup lib.CRYPTO_num_locks.toNat
        simp only [tls_global_init, hs, hl, ho, global_mutexes_init_ok]
        apply rdrand_nodup
        · cases hsha : lib.HAVE_OPENSSL_EVP_SHA256 <;>
            simp [List.nodup_append, List.nodup_cons, hn, locks_after]
        · cases hsha : lib.HAVE_OPENSSL_EVP_SHA256 <;> simp [locks_after]
        · cases hsha : lib.HAVE_OPENSSL_EVP_SHA256 <;> simp [locks_after]
        · cases hsha : lib.HAVE_OPENSSL_EVP_SHA256 <;> simp [locks_after]

theorem _global_mutex_length (c mode n : Nat) (s : State) :
    (_global_mutex c mode n s).state.tls_done_init = s.tls_done_init ∧
    (_global_mutex c mode n s).state.global_mutexes.map List.length
      = s.global_mutexes.map List.length := by
  simp only [_global_mutex]
  rcases hg : s.global_mutexes with _ | m
  · simp [hg]
  · by_cases hm : mode &&& c ≠ 0
    · simp [hm]
    · simp [hm]

theorem run_keeps_length (lib : OpenSSL) (len : Nat) (cs : List Call) :
    ∀ s : State, s.tls_done_init = true → s.global_mutexes.map List.length = some len →
      Call.cleanup ∉ cs →
      (run lib s cs).1.tls_done_init = true ∧
      (run lib s cs).1.global_mutexes.map List.length = some len := by
  induction cs with
  | nil =>
    intro s h1 h2 _
    exact ⟨h1, h2⟩
  | cons c cs ih =>
    intro s h1 h2 hc
    have hc1 : c ≠ Call.cleanup := fun h => hc (by simp [h])
    have hc2 : Call.cleanup ∉ cs := fun h => hc (by simp [h])
    simp only [run]
    cases c with
    | init o =>
      simp only [step, tls_global_init_done lib o s h1]
      exact ih s h1 h2 hc2
    | cleanup => exact absurd rfl hc1
    | lock k mode n =>
      simp only [step]
      have hl := _global_mutex_length k mode n s
      exact ih _ (hl.1.trans h1) (hl.2.trans h2) hc2

/-! ## The claims: version gate -/

/-- C1: for a non-empty table `newest :: older`, `tls_global_version_check` returns -1
exactly when the acknowledgment differs from both `"yes"` and the identifier of the first
entry and some entry has `low <= v <= high` for the runtime version `v`; in every other
case it returns 0.  Both bounds are inclusive: at `v = low` and at `v = high` of an entry
(with `low <= high`) the check fails. -/
theorem version_check_fails_iff (newest : libssl_defect_t) (older : List libssl_defect_t)
    (SSLeay : Nat) (acknowledged : String) :
    (∃ ret log, tls_global_version_check (newest :: older) SSLeay acknowledged = some (ret, log) ∧
      (ret = -1 ↔ (acknowledged ≠ "yes" ∧ acknowledged ≠ newest.id ∧
        ∃ d ∈ newest :: older, d.low ≤ SSLeay % 2 ^ 64 ∧ SSLeay % 2 ^ 64 ≤ d.high)) ∧
      (ret ≠ -1 → ret = 0)) ∧
    (∀ d ∈ newest :: older, d.low ≤ d.high → d.high < 2 ^ 64 →
      acknowledged ≠ "yes" → acknowledged ≠ newest.id →
      (tls_global_version_check (newest :: older) d.low acknowledged).map Prod.fst = some (-1) ∧
      (tls_global_version_check (newest :: older) d.high acknowledged).map Prod.fst = some (-1)) := by
  constructor
  · have h := version_check_ret newest older SSLeay acknowledged
    rcases hr : tls_global_version_check (newest :: older) SSLeay acknowledged with _ | ⟨ret, log⟩
    · rw [hr] at h
      simp at h
    · refine ⟨ret, log, rfl, ?_⟩
      rw [hr] at h
      simp only [Option.map_some', Option.some.injEq] at h
      by_cases hc : acknowledged ≠ newest.id ∧ acknowledged ≠ "yes" ∧
          (newest :: older).any (affected (SSLeay % 2 ^ 64)) = true
      · rw [if_pos hc] at h
        subst h
        exact ⟨⟨fun _ => ⟨hc.2.1, hc.1, (any_affected_iff _ _).1 hc.2.2⟩, fun _ => rfl⟩,
          fun hne => absurd rfl hne⟩
      · rw [if_neg hc] at h
        subst h
        refine ⟨⟨fun h0 => absurd h0 (by decide),
          fun hh => absurd ⟨hh.2.1, hh.1, (any_affected_iff _ _).2 hh.2.2⟩ hc⟩, fun _ => rfl⟩
  · intro d hd hle hhi hyes hid
    have hlo : d.low % 2 ^ 64 = d.low := Nat.mod_eq_of_lt (lt_of_le_of_lt hle hhi)
    have hhi' : d.high % 2 ^ 64 = d.high := Nat.mod_eq_of_lt hhi
    constructor
    · rw [version_check_ret, if_pos]
      refine ⟨hid, hyes, (any_affected_iff _ _).2 ⟨d, hd, ?_⟩⟩
      rw [hlo]
      exact ⟨le_refl _, hle⟩
    · rw [version_check_ret, if_pos]
      refine ⟨hid, hyes, (any_affected_iff _ _).2 ⟨d, hd, ?_⟩⟩
      rw [hhi']
      exact ⟨hle, le_refl _⟩

/-- Witness for C1: the shipped table at the first and the last Heartbleed version,
acknowledgment `"no"`. -/
theorem version_check_fails_iff_witness :
    (tls_global_version_check libssl_defects 0x010001000 "no").map Prod.fst = some (-1) ∧
    (tls_global_version_check libssl_defects 0x01000106f "no").map Prod.fst = some (-1) :=
  (version_check_fails_iff
      { low := 0x010001000, high := 0x01000106f, id := "CVE-2014-0160", name := "Heartbleed",
        comment := "For more information see http://heartbleed.com" } [] 0 "no").2
    _ (List.mem_singleton.2 rfl) (by decide) (by decide) (by decide) (by decide)

/-- C2: when the acknowledgment is neither `"yes"` nor the newest identifier, the
diagnostics are the three lines of every table entry whose inclusive range contains the
runtime version, in table order, one report per such entry (followed by the closing
guidance line when there was a match); so the reported defects are exactly the matching
sub-sequence of the whole table.  For the table `[{low 100, high 200, id "D1"}]`,
acknowledgment `"other"` and version 150, exactly `"D1"` is reported. -/
theorem version_check_reports_all_matches (newest : libssl_defect_t)
    (older : List libssl_defect_t) (SSLeay : Nat) (acknowledged : String)
    (hyes : acknowledged ≠ "yes") (hid : acknowledged ≠ newest.id) :
    (∃ ret log, tls_global_version_check (newest :: older) SSLeay acknowledged = some (ret, log) ∧
      log = ((newest :: older).filter (affected (SSLeay % 2 ^ 64))).flatMap defect_report
              ++ (if ret = -1 then [LogMsg.INFO_allow newest.id] else []) ∧
      reported_defects log
        = ((newest :: older).filter (affected (SSLeay % 2 ^ 64))).map
            (fun d => (d.id, d.name, d.comment))) ∧
    (∀ name comment : String,
      tls_global_version_check
          [{ low := 100, high := 200, id := "D1", name := name, comment := comment }]
          150 "other"
        = some (-1, [LogMsg.ERROR_refusing 100 200, LogMsg.ERROR_advisory "D1" name,
                     LogMsg.ERROR_comment comment, LogMsg.INFO_allow "D1"]) ∧
      reported_defects [LogMsg.ERROR_refusing 100 200, LogMsg.ERROR_advisory "D1" name,
                        LogMsg.ERROR_comment comment, LogMsg.INFO_allow "D1"]
        = [("D1", name, comment)]) := by
  constructor
  · rw [version_check_eq, if_pos ⟨hid, hyes⟩]
    by_cases hany : (newest :: older).any (affected (SSLeay % 2 ^ 64)) = true
    · rw [if_pos hany]
      refine ⟨-1, _, rfl, by simp, ?_⟩
      rw [reported_defects_flatMap]
      simp [reported_defects]
    · rw [if_neg hany]
      refine ⟨0, _, rfl, by simp, ?_⟩
      have h := reported_defects_flatMap
        ((newest :: older).filter (affected (SSLeay % 2 ^ 64))) []
      simpa [reported_defects] using h
  · intro name comment
    constructor
    · rw [version_check_eq]
      simp [affected, defect_report]
    · simp [reported_defects]

/-- Witness for C2: the shipped table, OpenSSL 1.0.1f, acknowledgment `"no"`. -/
theorem version_check_reports_all_matches_witness :
    ∃ ret log, tls_global_version_check libssl_defects 0x01000106f "no" = some (ret, log) ∧
      log = (libssl_defects.filter (affected (0x01000106f % 2 ^ 64))).flatMap defect_report
              ++ (if ret = -1 then [LogMsg.INFO_allow "CVE-2014-0160"] else []) ∧
      reported_defects log
        = (libssl_defects.filter (affected (0x01000106f % 2 ^ 64))).map
            (fun d => (d.id, d.name, d.comment)) :=
  (version_check_reports_all_matches
      { low := 0x010001000, high := 0x01000106f, id := "CVE-2014-0160", name := "Heartbleed",
        comment := "For more information see http://heartbleed.com" } [] 0x01000106f "no"
      (by decide) (by decide)).1

/-- C7, counterexample: with the shipped table, the acknowledgment `"yes"` is not the most
recent CVE and OpenSSL 1.0.1f is vulnerable, yet the function returns 0; and for the
patched 1.0.1g the acknowledgment `"no"` also gives 0. -/
theorem version_check_doc_comment_fails :
    libssl_defects.head?.map (fun d => d.id) = some "CVE-2014-0160" ∧
    "yes" ≠ "CVE-2014-0160" ∧
    (tls_global_version_check libssl_defects 0x01000106f "yes").map Prod.fst = some 0 ∧
    "no" ≠ "CVE-2014-0160" ∧
    (tls_global_version_check libssl_defects 0x01000107f "no").map Prod.fst = some 0 := by
  decide

/-- C7, amended: the function returns 0 if the acknowledgment is the most recent CVE of
the table, or is `"yes"`, or the runtime version lies in the range of no table entry;
else it returns -1. -/
theorem version_check_returns_zero_iff (newest : libssl_defect_t)
    (older : List libssl_defect_t) (SSLeay : Nat) (acknowledged : String) :
    ∃ ret log, tls_global_version_check (newest :: older) SSLeay acknowledged = some (ret, log) ∧
      (ret = 0 ↔ (acknowledged = newest.id ∨ acknowledged = "yes" ∨
        ∀ d ∈ newest :: older, ¬ (d.low ≤ SSLeay % 2 ^ 64 ∧ SSLeay % 2 ^ 64 ≤ d.high))) ∧
      (ret ≠ 0 → ret = -1) := by
  have h := version_check_ret newest older SSLeay acknowledged
  rcases hr : tls_global_version_check (newest :: older) SSLeay acknowledged with _ | ⟨ret, log⟩
  · rw [hr] at h
    simp at h
  · refine ⟨ret, log, rfl, ?_⟩
    rw [hr] at h
    simp only [Option.map_some', Option.some.injEq] at h
    by_cases hc : acknowledged ≠ newest.id ∧ acknowledged ≠ "yes" ∧
        (newest :: older).any (affected (SSLeay % 2 ^ 64)) = true
    · rw [if_pos hc] at h
      subst h
      refine ⟨⟨fun h0 => absurd h0 (by decide), ?_⟩, fun _ => rfl⟩
      rintro (h1 | h1 | h1)
      · exact absurd h1 hc.1
      · exact absurd h1 hc.2.1
      · obtain ⟨d, hd, hin⟩ := (any_affected_iff _ _).1 hc.2.2
        exact absurd hin (h1 d hd)
    · rw [if_neg hc] at h
      subst h
      refine ⟨⟨fun _ => ?_, fun _ => rfl⟩, fun hne => absurd rfl hne⟩
      by_cases h1 : acknowledged = newest.id
      · exact Or.inl h1
      · by_cases h2 : acknowledged = "yes"
        · exact Or.inr (Or.inl h2)
        · refine Or.inr (Or.inr fun d hd hin => hc ⟨h1, h2, ?_⟩)
          exact (any_affected_iff _ _).2 ⟨d, hd, hin⟩

/-! ## The claims: lock bridge -/

/-- C8: for every lock count `K` with `0 <= K` (an `int`, so `K < 2^31`) and a successful
allocation, `global_mutexes_init` returns an array of `K` slots (so of length at least
`K`), all of them initialised; `pthread_mutex_init` is called exactly once for every
index below `K` and never for an index from `K` on; and the two callbacks are registered
last, after all the `K` initialisations.  The function is total, so it terminates. -/
theorem global_mutexes_init_initialises_all (K : Int) (h0 : 0 ≤ K) (h1 : K < 2 ^ 31) :
    (global_mutexes_init K true).1 = some (List.replicate K.toNat pthread_mutex_t.unlocked) ∧
    (∃ mutexes, (global_mutexes_init K true).1 = some mutexes ∧ K ≤ (mutexes.length : Int)) ∧
    (global_mutexes_init K true).2
      = [Event.talloc_array K.toNat, Event.talloc_set_destructor]
        ++ (List.range K.toNat).map Event.pthread_mutex_init
        ++ [Event.CRYPTO_set_id_callback (some Callback._thread_id),
            Event.CRYPTO_set_locking_callback (some Callback._global_mutex)] ∧
    (∀ i : Nat, (global_mutexes_init K true).2.count (Event.pthread_mutex_init i)
      = if (i : Int) < K then 1 else 0) := by
  have hc := toNat_mod_of_int_range K h0 h1
  have hm : (global_mutexes_init K true).1
      = some (List.replicate K.toNat pthread_mutex_t.unlocked) := by
    rw [global_mutexes_init_ok, hc, locks_after_full]
  have ht : (global_mutexes_init K true).2
      = [Event.talloc_array K.toNat, Event.talloc_set_destructor]
        ++ (List.range K.toNat).map Event.pthread_mutex_init
        ++ [Event.CRYPTO_set_id_callback (some Callback._thread_id),
            Event.CRYPTO_set_locking_callback (some Callback._global_mutex)] := by
    rw [global_mutexes_init_ok, hc]
    rfl
  refine ⟨hm, ⟨_, hm, ?_⟩, ht, ?_⟩
  · simp only [List.length_replicate]
    omega
  · intro i
    rw [ht]
    simp only [List.count_append, List.count_cons, List.count_nil, beq_iff_eq,
      reduceCtorEq, if_false, Nat.add_zero, Nat.zero_add]
    rw [List.count_eq_of_nodup (mutex_init_range_nodup K.toNat)]
    by_cases hi : (i : Int) < K
    · have : i < K.toNat := by omega
      simp [hi, this]
    · have : ¬ i < K.toNat := by omega
      simp [hi, this]

/-- Witness for C8: 43 locks, so the 41 written statements and two rounds of the loop. -/
theorem global_mutexes_init_initialises_all_witness :
    (global_mutexes_init 43 true).1 = some (List.replicate 43 pthread_mutex_t.unlocked) ∧
    (global_mutexes_init 43 true).2.count (Event.pthread_mutex_init 42) = 1 ∧
    (global_mutexes_init 43 true).2.count (Event.pthread_mutex_init 43) = 0 :=
  ⟨(global_mutexes_init_initialises_all 43 (by decide) (by decide)).1,
   (global_mutexes_init_initialises_all 43 (by decide) (by decide)).2.2.2 42,
   (global_mutexes_init_initialises_all 43 (by decide) (by decide)).2.2.2 43⟩

/-- C9: the destructor `_global_mutexes_free` first sets the thread-identity callback and
the locking callback to `NULL` and only then destroys the mutexes, each index
`0 .. length-1` exactly once and in order; `tls_global_cleanup` runs it inside
`TALLOC_FREE`, after its other calls and before the memory is released. -/
theorem _global_mutexes_free_deregisters_first (mutexes : List pthread_mutex_t)
    (done : Bool) :
    _global_mutexes_free mutexes
      = (0, List.replicate mutexes.length pthread_mutex_t.destroyed,
         [Event.CRYPTO_set_id_callback none, Event.CRYPTO_set_locking_callback none]
           ++ (List.range mutexes.length).map Event.pthread_mutex_destroy) ∧
    (∀ i : Nat, (_global_mutexes_free mutexes).2.2.count (Event.pthread_mutex_destroy i)
      = if i < mutexes.length then 1 else 0) ∧
    (tls_global_cleanup { tls_done_init := done, global_mutexes := some mutexes }).trace
      = [Event.FR_TLS_REMOVE_THREAD_STATE, Event.ENGINE_cleanup, Event.CONF_modules_unload,
         Event.ERR_free_strings, Event.EVP_cleanup, Event.CRYPTO_cleanup_all_ex_data]
        ++ [Event.CRYPTO_set_id_callback none, Event.CRYPTO_set_locking_callback none]
        ++ (List.range mutexes.length).map Event.pthread_mutex_destroy
        ++ [Event.talloc_free] := by
  have hinj : Function.Injective Event.pthread_mutex_destroy := by
    intro a b hab
    injection hab
  refine ⟨_global_mutexes_free_eq mutexes, ?_, ?_⟩
  · intro i
    rw [_global_mutexes_free_eq]
    simp only [List.count_append, List.count_cons, List.count_nil, beq_iff_eq,
      reduceCtorEq, if_false, Nat.add_zero, Nat.zero_add]
    rw [List.count_eq_of_nodup ((List.nodup_range _).map hinj)]
    by_cases hi : i < mutexes.length
    · simp [hi]
    · simp [hi]
  · simp [tls_global_cleanup, _global_mutexes_free_eq]

/-- C10, counterexample: for the 41 locks of OpenSSL 1.0.x the array has 41 slots,
not 42. -/
theorem lock_array_has_no_extra_slot :
    (global_mutexes_init 41 true).1.map List.length = some 41 ∧
    (global_mutexes_init 41 true).1.map List.length ≠ some (41 + 1) := by
  have h := (global_mutexes_init_ok 41)
  have hl : (global_mutexes_init 41 true).1.map List.length = some 41 := by
    rw [h]
    simp [locks_after]
  rw [hl]
  exact ⟨rfl, by decide⟩

/-- C10, amended: the lock array has exactly `K` slots, index 0 being one of them and
not an extra one: for every lock count `0 <= K < 2^31`, after a successful
`tls_global_init` on the legacy model `global_mutexes` has length `K`, and no sequence of
later `tls_global_init` and locking-callback calls changes that length before
`tls_global_cleanup`. -/
theorem lock_array_length_fixed (lib : OpenSSL) (o : Oracle) (s : State) (cs : List Call)
    (h0 : 0 ≤ lib.CRYPTO_num_locks) (h1 : lib.CRYPTO_num_locks < 2 ^ 31)
    (hleg : lib.legacy = true) (hs : s.tls_done_init = false)
    (hok : o.talloc_array_ok = true) (hcs : Call.cleanup ∉ cs) :
    (global_mutexes_init lib.CRYPTO_num_locks true).1.map List.length
      = some lib.CRYPTO_num_locks.toNat ∧
    ((lib.CRYPTO_num_locks.toNat : Int) = lib.CRYPTO_num_locks) ∧
    (tls_global_init lib o s).state.global_mutexes
      = (global_mutexes_init lib.CRYPTO_num_locks true).1 ∧
    (run lib (tls_global_init lib o s).state cs).1.global_mutexes.map List.length
      = some lib.CRYPTO_num_locks.toNat := by
  have hc := toNat_mod_of_int_range _ h0 h1
  have hlen : (global_mutexes_init lib.CRYPTO_num_locks true).1.map List.length
      = some lib.CRYPTO_num_locks.toNat := by
    rw [global_mutexes_init_ok, hc, locks_after_full]
    simp
  have hst : (tls_global_init lib o s).state.global_mutexes
      = (global_mutexes_init lib.CRYPTO_num_locks true).1 := by
    simp [tls_global_init, hs, hleg, hok, global_mutexes_init_ok, tls_global_init_tail]
  have hflag : (tls_global_init lib o s).state.tls_done_init = true := by
    rw [tls_global_init_flag]
    simp [hok]
  refine ⟨hlen, by omega, hst, ?_⟩
  exact (run_keeps_length lib _ cs _ hflag (by rw [hst, hlen]) hcs).2

/-- Witness for C10 (amended): OpenSSL 1.0.1 with 41 locks; after the first call, a
second `tls_global_init`, a lock and an unlock of slot 40. -/
theorem lock_array_length_fixed_witness :
    (run { OPENSSL_VERSION_NUMBER := 0x1000100f, HAVE_OPENSSL_EVP_SHA256 := true,
           CRYPTO_num_locks := 41 }
        (tls_global_init { OPENSSL_VERSION_NUMBER := 0x1000100f, HAVE_OPENSSL_EVP_SHA256 := true,
                           CRYPTO_num_locks := 41 }
          { talloc_array_ok := true, default_RAND := some "rdrand" } State.start).state
        [Call.init { talloc_array_ok := true, default_RAND := none },
         Call.lock 1 9 40, Call.lock 1 10 40]).1.global_mutexes.map List.length
      = some 41 :=
  (lock_array_length_fixed
    { OPENSSL_VERSION_NUMBER := 0x1000100f, HAVE_OPENSSL_EVP_SHA256 := true,
      CRYPTO_num_locks := 41 }
    { talloc_array_ok := true, default_RAND := some "rdrand" } State.start
    [Call.init { talloc_array_ok := true, default_RAND := none },
     Call.lock 1 9 40, Call.lock 1 10 40]
    (by decide) (by decide) (by decide) rfl rfl (by decide)).2.2.2

/-! ## The claims: lifecycle -/

/-- C3: in every state whose flag `tls_done_init` is true, `tls_global_init` returns 0,
makes no call at all (no table loading, no allocation, no callback registration, no engine
call) and leaves the flag and `global_mutexes` as they were.  So when a first call has
succeeded, a second call in a row returns 0 and adds nothing: the two calls together
perform the steps of the first call only. -/
theorem tls_global_init_idempotent (lib : OpenSSL) (o o2 : Oracle) (s : State) :
    (s.tls_done_init = true →
      tls_global_init lib o s = { ret := 0, state := s, trace := [] }) ∧
    ((tls_global_init lib o s).ret = 0 →
      tls_global_init lib o2 (tls_global_init lib o s).state
        = { ret := 0, state := (tls_global_init lib o s).state, trace := [] } ∧
      run lib s [Call.init o, Call.init o2]
        = ((tls_global_init lib o s).state, (tls_global_init lib o s).trace)) := by
  refine ⟨tls_global_init_done lib o s, fun h => ?_⟩
  have hf := tls_global_init_flag_of_ret lib o s h
  have h2 := tls_global_init_done lib o2 _ hf
  refine ⟨h2, ?_⟩
  simp only [run, step, h2, List.append_nil]

/-- Witness for C3: an initialised state with a two-slot lock array, and two calls in a
row from process start on the modern model. -/
theorem tls_global_init_idempotent_witness :
    tls_global_init { OPENSSL_VERSION_NUMBER := 0x1000100f, HAVE_OPENSSL_EVP_SHA256 := true,
                      CRYPTO_num_locks := 2 }
        { talloc_array_ok := false, default_RAND := some "rdrand" }
        { tls_done_init := true,
          global_mutexes := some [pthread_mutex_t.unlocked, pthread_mutex_t.locked] }
      = { ret := 0
          state := { tls_done_init := true,
                     global_mutexes := some [pthread_mutex_t.unlocked, pthread_mutex_t.locked] }
          trace := [] } ∧
    run { OPENSSL_VERSION_NUMBER := 0x1010100f, HAVE_OPENSSL_EVP_SHA256 := true,
          CRYPTO_num_locks := 1 } State.start
        [Call.init { talloc_array_ok := true, default_RAND := some "rdrand" },
         Call.init { talloc_array_ok := true, default_RAND := some "rdrand" }]
      = ({ tls_done_init := true, global_mutexes := none },
         [Event.OPENSSL_init_crypto, Event.ENGINE_unregister_RAND,
          Event.ENGINE_register_all_complete, Event.OPENSSL_config]) :=
  ⟨(tls_global_init_idempotent
      { OPENSSL_VERSION_NUMBER := 0x1000100f, HAVE_OPENSSL_EVP_SHA256 := true,
        CRYPTO_num_locks := 2 }
      { talloc_array_ok := false, default_RAND := some "rdrand" }
      { talloc_array_ok := false, default_RAND := some "rdrand" }
      { tls_done_init := true,
        global_mutexes := some [pthread_mutex_t.unlocked, pthread_mutex_t.locked] }).1 rfl,
   ((tls_global_init_idempotent
      { OPENSSL_VERSION_NUMBER := 0x1010100f, HAVE_OPENSSL_EVP_SHA256 := true,
        CRYPTO_num_locks := 1 }
      { talloc_array_ok := true, default_RAND := some "rdrand" }
      { talloc_array_ok := true, default_RAND := some "rdrand" } State.start).2
        (by decide)).2⟩

/-- C4: `tls_global_init` returns -1 exactly when the flag was false, the legacy model is
compiled in and the array allocation of `global_mutexes_init` returned `NULL` (which it
does exactly when `talloc_array` fails); every other call returns 0.  In particular the
modern model never fails, and after a successful allocation the call returns 0 with the
flag set. -/
theorem tls_global_init_fails_iff (lib : OpenSSL) (o : Oracle) (s : State) :
    ((tls_global_init lib o s).ret = -1 ↔
      (s.tls_done_init = false ∧ lib.legacy = true ∧
        (global_mutexes_init lib.CRYPTO_num_locks o.talloc_array_ok).1 = none)) ∧
    ((global_mutexes_init lib.CRYPTO_num_locks o.talloc_array_ok).1 = none ↔
      o.talloc_array_ok = false) ∧
    ((tls_global_init lib o s).ret ≠ -1 → (tls_global_init lib o s).ret = 0) ∧
    (lib.legacy = false → (tls_global_init lib o s).ret = 0) ∧
    (o.talloc_array_ok = true →
      (tls_global_init lib o s).ret = 0 ∧
      (tls_global_init lib o s).state.tls_done_init = true) := by
  have hnull : (global_mutexes_init lib.CRYPTO_num_locks o.talloc_array_ok).1 = none ↔
      o.talloc_array_ok = false := by
    cases ho : o.talloc_array_ok
    · simp [global_mutexes_init_fail]
    · simp [global_mutexes_init_ok]
  have hret := tls_global_init_ret lib o s
  have hflag := tls_global_init_flag lib o s
  refine ⟨?_, hnull, ?_, ?_, ?_⟩
  · rw [hnull, hret]
    by_cases hc : s.tls_done_init = false ∧ lib.legacy = true ∧ o.talloc_array_ok = false
    · simp [hc]
    · rw [if_neg hc]
      exact ⟨fun h => absurd h (by decide), fun h => absurd h hc⟩
  · rw [hret]
    by_cases hc : s.tls_done_init = false ∧ lib.legacy = true ∧ o.talloc_array_ok = false
    · simp [hc]
    · simp [if_neg hc]
  · intro hl
    rw [hret, if_neg]
    simp [hl]
  · intro ho
    rw [hret, hflag, if_neg (by simp [ho])]
    simp [ho]

/-- Witness for C4: OpenSSL 1.0.1 at process start; the call fails when the allocation
fails and succeeds when it succeeds. -/
theorem tls_global_init_fails_iff_witness :
    (tls_global_init { OPENSSL_VERSION_NUMBER := 0x1000100f, HAVE_OPENSSL_EVP_SHA256 := true,
                       CRYPTO_num_locks := 41 }
        { talloc_array_ok := false, default_RAND := none } State.start).ret = -1 ∧
    (tls_global_init { OPENSSL_VERSION_NUMBER := 0x1000100f, HAVE_OPENSSL_EVP_SHA256 := true,
                       CRYPTO_num_locks := 41 }
        { talloc_array_ok := true, default_RAND := none } State.start).ret = 0 :=
  ⟨(tls_global_init_fails_iff
      { OPENSSL_VERSION_NUMBER := 0x1000100f, HAVE_OPENSSL_EVP_SHA256 := true,
        CRYPTO_num_locks := 41 }
      { talloc_array_ok := false, default_RAND := none } State.start).1.2
      ⟨rfl, by decide, ((tls_global_init_fails_iff
        { OPENSSL_VERSION_NUMBER := 0x1000100f, HAVE_OPENSSL_EVP_SHA256 := true,
          CRYPTO_num_locks := 41 }
        { talloc_array_ok := false, default_RAND := none } State.start).2.1).2 rfl⟩,
   ((tls_global_init_fails_iff
      { OPENSSL_VERSION_NUMBER := 0x1000100f, HAVE_OPENSSL_EVP_SHA256 := true,
        CRYPTO_num_locks := 41 }
      { talloc_array_ok := true, default_RAND := none } State.start).2.2.2.2 rfl).1⟩

/-- C5, counterexample: from process start on OpenSSL 1.0.1, a first `tls_global_init`
whose allocation fails followed by a second one whose allocation succeeds, with no
teardown in between, runs `SSL_load_error_strings` twice. -/
theorem init_steps_repeated_after_failed_init :
    (run { OPENSSL_VERSION_NUMBER := 0x1000100f, HAVE_OPENSSL_EVP_SHA256 := true,
           CRYPTO_num_locks := 41 } State.start
        [Call.init { talloc_array_ok := false, default_RAND := none },
         Call.init { talloc_array_ok := true, default_RAND := none }]).2.count
      Event.SSL_load_error_strings = 2 := by
  simp only [run, step, tls_global_init, State.start, OpenSSL.legacy,
    global_mutexes_init_fail, global_mutexes_init_ok, tls_global_init_tail, locks_after]
  simp [List.count_append, List.count_cons, List.count_eq_zero]

/-- C5, amended: one call of `tls_global_init`, successful or not, executes each
initialization step at most once; and once a call has succeeded, further calls execute
nothing until the next teardown: for a successful call followed by any number of further
`tls_global_init` calls every step occurs at most once.  (Only a failed call, which
leaves the flag false, is repeated by the next call.) -/
theorem init_steps_once_per_successful_init (lib : OpenSSL) (s : State) (o : Oracle)
    (os : List Oracle) :
    (∀ e : Event, (tls_global_init lib o s).trace.count e ≤ 1) ∧
    ((tls_global_init lib o s).ret = 0 →
      ∀ e : Event, (run lib s (Call.init o :: os.map Call.init)).2.count e ≤ 1) := by
  have hn := List.nodup_iff_count_le_one.1 (tls_global_init_trace_nodup lib o s)
  refine ⟨hn, fun h e => ?_⟩
  have hf := tls_global_init_flag_of_ret lib o s h
  simp only [run, step, run_inits_done lib os _ hf, List.append_nil]
  exact hn e

/-- Witness for C5 (amended): OpenSSL 1.0.1 from process start, three calls in a row, the
first one successful. -/
theorem init_steps_once_per_successful_init_witness :
    (run { OPENSSL_VERSION_NUMBER := 0x1000100f, HAVE_OPENSSL_EVP_SHA256 := true,
           CRYPTO_num_locks := 41 } State.start
        [Call.init { talloc_array_ok := true, default_RAND := none },
         Call.init { talloc_array_ok := false, default_RAND := none },
         Call.init { talloc_array_ok := true, default_RAND := none }]).2.count
      Event.SSL_load_error_strings ≤ 1 :=
  (init_steps_once_per_successful_init
    { OPENSSL_VERSION_NUMBER := 0x1000100f, HAVE_OPENSSL_EVP_SHA256 := true,
      CRYPTO_num_locks := 41 } State.start
    { talloc_array_ok := true, default_RAND := none }
    [{ talloc_array_ok := false, default_RAND := none },
     { talloc_array_ok := true, default_RAND := none }]).2
    (by rw [tls_global_init_ret]; decide) Event.SSL_load_error_strings

/-- C6, counterexample: on OpenSSL 1.0.1, after `tls_global_cleanup` of an initialised
state, a `tls_global_init` whose lock-array allocation fails returns -1 and leaves the
flag false. -/
theorem init_after_cleanup_can_fail :
    (tls_global_init { OPENSSL_VERSION_NUMBER := 0x1000100f, HAVE_OPENSSL_EVP_SHA256 := true,
                       CRYPTO_num_locks := 41 }
        { talloc_array_ok := false, default_RAND := none }
        (tls_global_cleanup
          { tls_done_init := true,
            global_mutexes := some (List.replicate 41 pthread_mutex_t.unlocked) }).state).ret
      = -1 ∧
    (tls_global_init { OPENSSL_VERSION_NUMBER := 0x1000100f, HAVE_OPENSSL_EVP_SHA256 := true,
                       CRYPTO_num_locks := 41 }
        { talloc_array_ok := false, default_RAND := none }
        (tls_global_cleanup
          { tls_done_init := true,
            global_mutexes := some (List.replicate 41 pthread_mutex_t.unlocked) }).state
      ).state.tls_done_init = false := by
  rw [tls_global_init_ret, tls_global_init_flag]
  decide

/-- C6, amended: on the legacy model (the only one with a teardown), for every state,
after `tls_global_cleanup` the flag is false and the lock-array pointer is `NULL`; a
subsequent `tls_global_init` whose lock-array allocation succeeds returns 0, is not cut
short by the idempotence guard but runs the whole initialization as from process start
(library tables, a fresh array from `global_mutexes_init`, both callbacks registered)
and leaves the flag true. -/
theorem init_after_cleanup_reinitialises (lib : OpenSSL) (o : Oracle) (s : State)
    (hleg : lib.legacy = true) (hok : o.talloc_array_ok = true) :
    (tls_global_cleanup s).state.tls_done_init = false ∧
    (tls_global_cleanup s).state.global_mutexes = none ∧
    (tls_global_init lib o (tls_global_cleanup s).state).ret = 0 ∧
    (tls_global_init lib o (tls_global_cleanup s).state).state.tls_done_init = true ∧
    (tls_global_init lib o (tls_global_cleanup s).state).state.global_mutexes
      = (global_mutexes_init lib.CRYPTO_num_locks true).1 ∧
    (global_mutexes_init lib.CRYPTO_num_locks true).1 ≠ none ∧
    tls_global_init lib o (tls_global_cleanup s).state = tls_global_init lib o State.start ∧
    (∀ e ∈ [Event.SSL_load_error_strings, Event.SSL_library_init,
            Event.OpenSSL_add_all_algorithms, Event.ENGINE_load_builtin_engines,
            Event.talloc_array (lib.CRYPTO_num_locks % 2 ^ 32).toNat,
            Event.talloc_set_destructor,
            Event.CRYPTO_set_id_callback (some Callback._thread_id),
            Event.CRYPTO_set_locking_callback (some Callback._global_mutex),
            Event.ENGINE_register_all_complete, Event.OPENSSL_config],
      e ∈ (tls_global_init lib o (tls_global_cleanup s).state).trace) := by
  have hst : (tls_global_cleanup s).state = State.start := rfl
  rw [hst]
  refine ⟨rfl, rfl, ?_, ?_, ?_, ?_, rfl, ?_⟩
  · rw [tls_global_init_ret]
    simp [hok]
  · rw [tls_global_init_flag]
    simp [hok]
  · simp [tls_global_init, State.start, hleg, hok, global_mutexes_init_ok,
      tls_global_init_tail]
  · simp [global_mutexes_init_ok]
  · intro e he
    simp only [tls_global_init, State.start, hleg, hok, global_mutexes_init_ok,
      tls_global_init_tail, locks_after]
    simp only [List.mem_cons, List.mem_singleton, List.not_mem_nil, or_false] at he
    rcases he with h | h | h | h | h | h | h | h | h | h <;> subst h <;> simp

/-- Witness for C6 (amended): OpenSSL 1.0.1 with 41 locks, teardown of an initialised
state, then a call whose allocation succeeds. -/
theorem init_after_cleanup_reinitialises_witness :
    (tls_global_init { OPENSSL_VERSION_NUMBER := 0x1000100f, HAVE_OPENSSL_EVP_SHA256 := true,
                       CRYPTO_num_locks := 41 }
        { talloc_array_ok := true, default_RAND := some "rdrand" }
        (tls_global_cleanup
          { tls_done_init := true,
            global_mutexes := some (List.replicate 41 pthread_mutex_t.unlocked) }).state).ret
      = 0 :=
  (init_after_cleanup_reinitialises
    { OPENSSL_VERSION_NUMBER := 0x1000100f, HAVE_OPENSSL_EVP_SHA256 := true,
      CRYPTO_num_locks := 41 }
    { talloc_array_ok := true, default_RAND := some "rdrand" }
    { tls_done_init := true,
      global_mutexes := some (List.replicate 41 pthread_mutex_t.unlocked) }
    (by decide) rfl).2.2.1

end TlsGlobal
